import Mathlib

/-!
Verification of the attribute-flag module (src/attributes.rs) of the
pancurses crate: a typed wrapper over the native terminal library's
attribute bitmask.  The native constants (A_BOLD, A_BLINK, ...,
COLOR_PAIR) are defined outside this file's source, so the development
is parametric in them; a concrete ncurses-style instantiation is
provided for evaluating theorems on concrete inputs.
-/

/-- Rust type alias: the native character/attribute type, an unsigned
integer used only through bitwise operations (never overflowing
arithmetic), so Nat embeds it exactly. -/
abbrev chtype := Nat

/-- Modelled from the spec: the attribute constants A_ALTCHARSET ..
A_UNDERLINE and the color-pair encoding macro COLOR_PAIR are defined by
the native terminal library (not in src/), which the spec calls an
opaque, externally-owned ABI.  They are therefore taken as parameters. -/
structure Curses where
  A_ALTCHARSET : chtype
  A_BOLD : chtype
  A_BLINK : chtype
  A_CHARTEXT : chtype
  A_DIM : chtype
  A_LEFTLINE : chtype
  A_INVIS : chtype
  A_ITALIC : chtype
  A_OVERLINE : chtype
  A_REVERSE : chtype
  A_RIGHTLINE : chtype
  A_STRIKEOUT : chtype
  A_UNDERLINE : chtype
  COLOR_PAIR : chtype → chtype

/-- Modelled from the spec: one concrete instantiation of the external
ABI, with the ncurses bit layout (attribute bits above bit 16, the
color-pair field in bits 8..16, the character text mask in bits 0..8),
used to evaluate the parametric theorems on concrete inputs. -/
def cursesABI : Curses where
  A_ALTCHARSET := 1 <<< 22
  A_BOLD := 1 <<< 21
  A_BLINK := 1 <<< 19
  A_CHARTEXT := (1 <<< 8) - 1
  A_DIM := 1 <<< 20
  A_LEFTLINE := 1 <<< 27
  A_INVIS := 1 <<< 23
  A_ITALIC := 1 <<< 31
  A_OVERLINE := 1 <<< 28
  A_REVERSE := 1 <<< 18
  A_RIGHTLINE := 1 <<< 29
  A_STRIKEOUT := 1 <<< 30
  A_UNDERLINE := 1 <<< 17
  COLOR_PAIR := fun n => (n <<< 8) &&& (255 <<< 8)

/-- enum Attribute: the closed enumeration of single attributes plus the
color-pair selector. -/
inductive Attribute where
  | AlternativeCharSet
  | Bold
  | Blink
  | CharText
  | Dim
  | Leftline
  | Invisible
  | Italic
  | Normal
  | Overline
  | Reverse
  | Rightline
  | Strikeout
  | Underline
  | ColorPair (n : chtype)
deriving DecidableEq, Repr

/-- struct Attributes: a raw bitmask plus the stored color-pair
identifier. -/
structure Attributes where
  raw : chtype
  color_pair : chtype
deriving DecidableEq, Repr

namespace Attributes

/-- Attributes::new() -/
def new : Attributes := { raw := 0, color_pair := 0 }

/-- the attribute_setter! macro body: OR the bit in when enabled,
XOR it when disabled (note: XOR, not AND-NOT, exactly as the source). -/
def attribute_setter (attr : chtype) (a : Attributes) (enabled : Bool) : Attributes :=
  if enabled then { a with raw := a.raw ||| attr }
  else { a with raw := a.raw ^^^ attr }

def is_alternative_char_set (k : Curses) (a : Attributes) : Bool :=
  decide (a.raw &&& k.A_ALTCHARSET > 0)

def set_alternative_char_set (k : Curses) (a : Attributes) (enabled : Bool) : Attributes :=
  attribute_setter k.A_ALTCHARSET a enabled

def is_bold (k : Curses) (a : Attributes) : Bool :=
  decide (a.raw &&& k.A_BOLD > 0)

def set_bold (k : Curses) (a : Attributes) (enabled : Bool) : Attributes :=
  attribute_setter k.A_BOLD a enabled

def is_blink (k : Curses) (a : Attributes) : Bool :=
  decide (a.raw &&& k.A_BLINK > 0)

def set_blink (k : Curses) (a : Attributes) (enabled : Bool) : Attributes :=
  attribute_setter k.A_BLINK a enabled

def is_char_text (k : Curses) (a : Attributes) : Bool :=
  decide (a.raw &&& k.A_CHARTEXT > 0)

def set_char_text (k : Curses) (a : Attributes) (enabled : Bool) : Attributes :=
  attribute_setter k.A_CHARTEXT a enabled

def is_dim (k : Curses) (a : Attributes) : Bool :=
  decide (a.raw &&& k.A_DIM > 0)

def set_dim (k : Curses) (a : Attributes) (enabled : Bool) : Attributes :=
  attribute_setter k.A_DIM a enabled

def is_leftline (k : Curses) (a : Attributes) : Bool :=
  decide (a.raw &&& k.A_LEFTLINE > 0)

def set_leftline (k : Curses) (a : Attributes) (enabled : Bool) : Attributes :=
  attribute_setter k.A_LEFTLINE a enabled

def is_invisible (k : Curses) (a : Attributes) : Bool :=
  decide (a.raw &&& k.A_INVIS > 0)

def set_invisible (k : Curses) (a : Attributes) (enabled : Bool) : Attributes :=
  attribute_setter k.A_INVIS a enabled

def is_italic (k : Curses) (a : Attributes) : Bool :=
  decide (a.raw &&& k.A_ITALIC > 0)

def set_italic (k : Curses) (a : Attributes) (enabled : Bool) : Attributes :=
  attribute_setter k.A_ITALIC a enabled

def is_normal (a : Attributes) : Bool :=
  decide (a.raw = 0)

def set_normal (a : Attributes) : Attributes :=
  { a with raw := 0 }

def is_overline (k : Curses) (a : Attributes) : Bool :=
  decide (a.raw &&& k.A_OVERLINE > 0)

def set_overline (k : Curses) (a : Attributes) (enabled : Bool) : Attributes :=
  attribute_setter k.A_OVERLINE a enabled

def is_reverse (k : Curses) (a : Attributes) : Bool :=
  decide (a.raw &&& k.A_REVERSE > 0)

def set_reverse (k : Curses) (a : Attributes) (enabled : Bool) : Attributes :=
  attribute_setter k.A_REVERSE a enabled

def is_rightline (k : Curses) (a : Attributes) : Bool :=
  decide (a.raw &&& k.A_RIGHTLINE > 0)

def set_rightline (k : Curses) (a : Attributes) (enabled : Bool) : Attributes :=
  attribute_setter k.A_RIGHTLINE a enabled

def is_strikeout (k : Curses) (a : Attributes) : Bool :=
  decide (a.raw &&& k.A_STRIKEOUT > 0)

def set_strikeout (k : Curses) (a : Attributes) (enabled : Bool) : Attributes :=
  attribute_setter k.A_STRIKEOUT a enabled

def is_underline (k : Curses) (a : Attributes) : Bool :=
  decide (a.raw &&& k.A_UNDERLINE > 0)

def set_underline (k : Curses) (a : Attributes) (enabled : Bool) : Attributes :=
  attribute_setter k.A_UNDERLINE a enabled

/-- Attributes::set_color_pair: ORs COLOR_PAIR(color_pair) into the raw
mask and stores the identifier in its own field. -/
def set_color_pair (k : Curses) (a : Attributes) (color_pair : chtype) : Attributes :=
  { raw := a.raw ||| k.COLOR_PAIR color_pair, color_pair := color_pair }

end Attributes

/-- impl BitOr Attribute for Attributes: dispatch on the attribute and
call the matching setter with true (set_normal / set_color_pair for the
two special constructors). -/
def bitorAttr (k : Curses) (a : Attributes) (rhs : Attribute) : Attributes :=
  match rhs with
  | Attribute.AlternativeCharSet => a.set_alternative_char_set k true
  | Attribute.Bold => a.set_bold k true
  | Attribute.Blink => a.set_blink k true
  | Attribute.CharText => a.set_char_text k true
  | Attribute.Dim => a.set_dim k true
  | Attribute.Leftline => a.set_leftline k true
  | Attribute.Invisible => a.set_invisible k true
  | Attribute.Italic => a.set_italic k true
  | Attribute.Normal => a.set_normal
  | Attribute.Overline => a.set_overline k true
  | Attribute.Reverse => a.set_reverse k true
  | Attribute.Rightline => a.set_rightline k true
  | Attribute.Strikeout => a.set_strikeout k true
  | Attribute.Underline => a.set_underline k true
  | Attribute.ColorPair num => a.set_color_pair k num

/-- impl BitOr for Attributes: componentwise bitwise OR of the raw masks
and of the color-pair fields. -/
def bitorAttrs (a rhs : Attributes) : Attributes :=
  { raw := a.raw ||| rhs.raw, color_pair := a.color_pair ||| rhs.color_pair }

/-- impl BitOr for Attribute: combine two single attributes into an
Attributes value, starting from Attributes::new(). -/
def bitorAttrAttr (k : Curses) (a rhs : Attribute) : Attributes :=
  bitorAttr k (bitorAttr k Attributes.new a) rhs

/-- impl From Attribute for Attributes -/
def attributesFromAttribute (k : Curses) (a : Attribute) : Attributes :=
  bitorAttr k Attributes.new a

/-- impl From Attributes for chtype: the raw field, unchanged. -/
def chtypeFromAttributes (attributes : Attributes) : chtype :=
  attributes.raw

/-- impl From Attribute for chtype -/
def chtypeFromAttribute (k : Curses) (a : Attribute) : chtype :=
  chtypeFromAttributes (attributesFromAttribute k a)

/-- OpResult: the value a public API call returns: an updated Attributes
value, a Bool query answer, or a chtype. -/
inductive OpResult where
  | state (a : Attributes)
  | flag (b : Bool)
  | mask (c : chtype)
deriving DecidableEq, Repr

/-- AttrOp: a deep embedding of every public operation of the module, so
totality can be stated once over all of them. -/
inductive AttrOp where
  | newOp
  | isAlternativeCharSet
  | setAlternativeCharSet (b : Bool)
  | isBold
  | setBold (b : Bool)
  | isBlink
  | setBlink (b : Bool)
  | isCharText
  | setCharText (b : Bool)
  | isDim
  | setDim (b : Bool)
  | isLeftline
  | setLeftline (b : Bool)
  | isInvisible
  | setInvisible (b : Bool)
  | isItalic
  | setItalic (b : Bool)
  | isNormal
  | setNormal
  | isOverline
  | setOverline (b : Bool)
  | isReverse
  | setReverse (b : Bool)
  | isRightline
  | setRightline (b : Bool)
  | isStrikeout
  | setStrikeout (b : Bool)
  | isUnderline
  | setUnderline (b : Bool)
  | colorPair
  | setColorPair (c : chtype)
  | orAttribute (x : Attribute)
  | orAttributes (b : Attributes)
  | orAttrAttr (x y : Attribute)
  | fromAttribute (x : Attribute)
  | toChtype
  | attrToChtype (x : Attribute)
deriving DecidableEq, Repr

/-- runOp: run one public operation on state a under ABI k.  The Option
layer records a Rust panic; every arm of the source returns normally
(bitwise ops and field assignment cannot panic), so no arm is none. -/
def runOp (k : Curses) (a : Attributes) : AttrOp → Option OpResult
  | AttrOp.newOp => some (OpResult.state Attributes.new)
  | AttrOp.isAlternativeCharSet => some (OpResult.flag (a.is_alternative_char_set k))
  | AttrOp.setAlternativeCharSet b => some (OpResult.state (a.set_alternative_char_set k b))
  | AttrOp.isBold => some (OpResult.flag (a.is_bold k))
  | AttrOp.setBold b => some (OpResult.state (a.set_bold k b))
  | AttrOp.isBlink => some (OpResult.flag (a.is_blink k))
  | AttrOp.setBlink b => some (OpResult.state (a.set_blink k b))
  | AttrOp.isCharText => some (OpResult.flag (a.is_char_text k))
  | AttrOp.setCharText b => some (OpResult.state (a.set_char_text k b))
  | AttrOp.isDim => some (OpResult.flag (a.is_dim k))
  | AttrOp.setDim b => some (OpResult.state (a.set_dim k b))
  | AttrOp.isLeftline => some (OpResult.flag (a.is_leftline k))
  | AttrOp.setLeftline b => some (OpResult.state (a.set_leftline k b))
  | AttrOp.isInvisible => some (OpResult.flag (a.is_invisible k))
  | AttrOp.setInvisible b => some (OpResult.state (a.set_invisible k b))
  | AttrOp.isItalic => some (OpResult.flag (a.is_italic k))
  | AttrOp.setItalic b => some (OpResult.state (a.set_italic k b))
  | AttrOp.isNormal => some (OpResult.flag a.is_normal)
  | AttrOp.setNormal => some (OpResult.state a.set_normal)
  | AttrOp.isOverline => some (OpResult.flag (a.is_overline k))
  | AttrOp.setOverline b => some (OpResult.state (a.set_overline k b))
  | AttrOp.isReverse => some (OpResult.flag (a.is_reverse k))
  | AttrOp.setReverse b => some (OpResult.state (a.set_reverse k b))
  | AttrOp.isRightline => some (OpResult.flag (a.is_rightline k))
  | AttrOp.setRightline b => some (OpResult.state (a.set_rightline k b))
  | AttrOp.isStrikeout => some (OpResult.flag (a.is_strikeout k))
  | AttrOp.setStrikeout b => some (OpResult.state (a.set_strikeout k b))
  | AttrOp.isUnderline => some (OpResult.flag (a.is_underline k))
  | AttrOp.setUnderline b => some (OpResult.state (a.set_underline k b))
  | AttrOp.colorPair => some (OpResult.mask a.color_pair)
  | AttrOp.setColorPair c => some (OpResult.state (a.set_color_pair k c))
  | AttrOp.orAttribute x => some (OpResult.state (bitorAttr k a x))
  | AttrOp.orAttributes b => some (OpResult.state (bitorAttrs a b))
  | AttrOp.orAttrAttr x y => some (OpResult.state (bitorAttrAttr k x y))
  | AttrOp.fromAttribute x => some (OpResult.state (attributesFromAttribute k x))
  | AttrOp.toChtype => some (OpResult.mask (chtypeFromAttributes a))
  | AttrOp.attrToChtype x => some (OpResult.mask (chtypeFromAttribute k x))

/-- helper: ORing a mask in guarantees the mask's bits are all present. -/
theorem or_and_absorb (x y : Nat) : (x ||| y) &&& y = y := by
  apply Nat.eq_of_testBit_eq
  intro i
  simp only [Nat.testBit_lor, Nat.testBit_land]
  cases x.testBit i <;> cases y.testBit i <;> rfl

/-- Claim C3: the raw mask of a composition of two Attributes values is
the bitwise union of the two raw masks. -/
theorem c3_or_is_mask_union (a b : Attributes) :
    chtypeFromAttributes (bitorAttrs a b) =
      chtypeFromAttributes a ||| chtypeFromAttributes b := rfl

/-- helper: ORing two masks in keeps all the bits of the first one. -/
theorem or_left_and_absorb (x y z : Nat) : ((x ||| y) ||| z) &&& y = y := by
  apply Nat.eq_of_testBit_eq
  intro i
  simp only [Nat.testBit_lor, Nat.testBit_land]
  cases x.testBit i <;> cases y.testBit i <;> cases z.testBit i <;> rfl

/-- helper: after ORing a nonzero mask in, the masked raw value is
positive. -/
theorem or_and_pos (x y : Nat) (h : y ≠ 0) : (x ||| y) &&& y > 0 := by
  rw [or_and_absorb]
  exact Nat.pos_of_ne_zero h

/-- Claim C1 is refuted by the code: on a fresh Attributes value (bold
bit clear) the call set_bold(false) takes the XOR branch of
attribute_setter, which toggles the bit on instead of clearing it, so
is_bold() afterwards returns true, not false. -/
theorem c1_set_false_sets_bit :
    Attributes.is_bold cursesABI
      (Attributes.set_bold cursesABI Attributes.new false) = true := by decide

/-- Claim C2: ORing Attribute.Normal is exactly set_normal; it zeroes
the raw mask, so is_normal holds and every single-attribute query
returns false afterwards. -/
theorem c2_normal_clears_all (k : Curses) (a : Attributes) :
    bitorAttr k a Attribute.Normal = a.set_normal ∧
    (bitorAttr k a Attribute.Normal).is_normal = true ∧
    (bitorAttr k a Attribute.Normal).is_alternative_char_set k = false ∧
    (bitorAttr k a Attribute.Normal).is_bold k = false ∧
    (bitorAttr k a Attribute.Normal).is_blink k = false ∧
    (bitorAttr k a Attribute.Normal).is_char_text k = false ∧
    (bitorAttr k a Attribute.Normal).is_dim k = false ∧
    (bitorAttr k a Attribute.Normal).is_leftline k = false ∧
    (bitorAttr k a Attribute.Normal).is_invisible k = false ∧
    (bitorAttr k a Attribute.Normal).is_italic k = false ∧
    (bitorAttr k a Attribute.Normal).is_overline k = false ∧
    (bitorAttr k a Attribute.Normal).is_reverse k = false ∧
    (bitorAttr k a Attribute.Normal).is_rightline k = false ∧
    (bitorAttr k a Attribute.Normal).is_strikeout k = false ∧
    (bitorAttr k a Attribute.Normal).is_underline k = false := by
  refine ⟨rfl, ?_, ?_, ?_, ?_, ?_, ?_, ?_, ?_, ?_, ?_, ?_, ?_, ?_, ?_⟩
  all_goals
    simp [bitorAttr, Attributes.set_normal, Attributes.is_normal,
      Attributes.is_alternative_char_set, Attributes.is_bold, Attributes.is_blink,
      Attributes.is_char_text, Attributes.is_dim, Attributes.is_leftline,
      Attributes.is_invisible, Attributes.is_italic, Attributes.is_overline,
      Attributes.is_reverse, Attributes.is_rightline, Attributes.is_strikeout,
      Attributes.is_underline, Nat.zero_and]

/-- Claim C4: set_color_pair is idempotent (calling it twice with the
same identifier equals calling it once), and afterwards the color_pair
accessor returns the identifier from its own stored field. -/
theorem c4_set_color_pair_idempotent (k : Curses) (a : Attributes) (c : chtype) :
    (a.set_color_pair k c).set_color_pair k c = a.set_color_pair k c ∧
    (a.set_color_pair k c).color_pair = c := by
  refine ⟨?_, rfl⟩
  simp [Attributes.set_color_pair, Nat.or_assoc, Nat.or_self]

/-- Claim C5: for every single attribute whose native constant is
nonzero, ORing that attribute in makes the matching query answer true,
and ORing ColorPair(n) in makes color_pair() return n. -/
theorem c5_or_sets_attribute (k : Curses) (a : Attributes)
    (h1 : k.A_ALTCHARSET ≠ 0) (h2 : k.A_BOLD ≠ 0) (h3 : k.A_BLINK ≠ 0)
    (h4 : k.A_CHARTEXT ≠ 0) (h5 : k.A_DIM ≠ 0) (h6 : k.A_LEFTLINE ≠ 0)
    (h7 : k.A_INVIS ≠ 0) (h8 : k.A_ITALIC ≠ 0) (h9 : k.A_OVERLINE ≠ 0)
    (h10 : k.A_REVERSE ≠ 0) (h11 : k.A_RIGHTLINE ≠ 0) (h12 : k.A_STRIKEOUT ≠ 0)
    (h13 : k.A_UNDERLINE ≠ 0) :
    (bitorAttr k a Attribute.AlternativeCharSet).is_alternative_char_set k = true ∧
    (bitorAttr k a Attribute.Bold).is_bold k = true ∧
    (bitorAttr k a Attribute.Blink).is_blink k = true ∧
    (bitorAttr k a Attribute.CharText).is_char_text k = true ∧
    (bitorAttr k a Attribute.Dim).is_dim k = true ∧
    (bitorAttr k a Attribute.Leftline).is_leftline k = true ∧
    (bitorAttr k a Attribute.Invisible).is_invisible k = true ∧
    (bitorAttr k a Attribute.Italic).is_italic k = true ∧
    (bitorAttr k a Attribute.Overline).is_overline k = true ∧
    (bitorAttr k a Attribute.Reverse).is_reverse k = true ∧
    (bitorAttr k a Attribute.Rightline).is_rightline k = true ∧
    (bitorAttr k a Attribute.Strikeout).is_strikeout k = true ∧
    (bitorAttr k a Attribute.Underline).is_underline k = true ∧
    ∀ n, (bitorAttr k a (Attribute.ColorPair n)).color_pair = n := by
  refine ⟨?_, ?_, ?_, ?_, ?_, ?_, ?_, ?_, ?_, ?_, ?_, ?_, ?_, fun n => rfl⟩
  all_goals
    simp only [bitorAttr, Attributes.set_alternative_char_set, Attributes.set_bold,
      Attributes.set_blink, Attributes.set_char_text, Attributes.set_dim,
      Attributes.set_leftline, Attributes.set_invisible, Attributes.set_italic,
      Attributes.set_overline, Attributes.set_reverse, Attributes.set_rightline,
      Attributes.set_strikeout, Attributes.set_underline, Attributes.attribute_setter,
      if_true, Attributes.is_alternative_char_set, Attributes.is_bold,
      Attributes.is_blink, Attributes.is_char_text, Attributes.is_dim,
      Attributes.is_leftline, Attributes.is_invisible, Attributes.is_italic,
      Attributes.is_overline, Attributes.is_reverse, Attributes.is_rightline,
      Attributes.is_strikeout, Attributes.is_underline, decide_eq_true_eq]
  exacts [or_and_pos _ _ h1, or_and_pos _ _ h2, or_and_pos _ _ h3,
    or_and_pos _ _ h4, or_and_pos _ _ h5, or_and_pos _ _ h6,
    or_and_pos _ _ h7, or_and_pos _ _ h8, or_and_pos _ _ h9,
    or_and_pos _ _ h10, or_and_pos _ _ h11, or_and_pos _ _ h12,
    or_and_pos _ _ h13]

/-- witness for C5: at the concrete ABI, whose constants are nonzero,
ORing Bold makes is_bold true, and ORing ColorPair(3) on a fresh value
makes color_pair() return 3. -/
theorem c5_or_sets_attribute_witness :
    (bitorAttr cursesABI Attributes.new Attribute.Bold).is_bold cursesABI = true ∧
    (bitorAttr cursesABI Attributes.new (Attribute.ColorPair 3)).color_pair = 3 := by
  have h := c5_or_sets_attribute cursesABI Attributes.new (by decide) (by decide)
    (by decide) (by decide) (by decide) (by decide) (by decide) (by decide)
    (by decide) (by decide) (by decide) (by decide) (by decide)
  exact ⟨h.2.1, h.2.2.2.2.2.2.2.2.2.2.2.2.2 3⟩

/-- Claim C6: the chtype conversion of an Attributes value is exactly
its raw field, and the chtype conversion of a single Attribute goes
through Attributes::from. -/
theorem c6_chtype_is_raw (k : Curses) (a : Attributes) (x : Attribute) :
    chtypeFromAttributes a = a.raw ∧
    chtypeFromAttribute k x = chtypeFromAttributes (attributesFromAttribute k x) :=
  ⟨rfl, rfl⟩

/-- Claim C7: every public operation of the module is total: run under
the panic-recording semantics, it always returns a result. -/
theorem c7_ops_total (k : Curses) (a : Attributes) (op : AttrOp) :
    ∃ r, runOp k a op = some r := by
  cases op <;> exact ⟨_, rfl⟩

/-- Claim C8: ORing Attribute.Normal zeroes the raw mask but leaves the
stored color-pair identifier untouched. -/
theorem c8_normal_preserves_color_pair (k : Curses) (a : Attributes) :
    (bitorAttr k a Attribute.Normal).color_pair = a.color_pair ∧
    (bitorAttr k a Attribute.Normal).raw = 0 :=
  ⟨rfl, rfl⟩

/-- Claim C9: combining two Attributes values ORs their color-pair
identifiers together, which for the distinct nonzero identifiers 1 and 2
produces 3, which is neither of them. -/
theorem c9_or_merges_color_pairs :
    (∀ a b : Attributes, (bitorAttrs a b).color_pair = a.color_pair ||| b.color_pair) ∧
    (bitorAttrs { raw := 0, color_pair := 1 } { raw := 0, color_pair := 2 }).color_pair = 3 ∧
    (3 : chtype) ≠ 1 ∧ (3 : chtype) ≠ 2 :=
  ⟨fun _ _ => rfl, by decide, by decide, by decide⟩

/-- Claim C10: two successive set_color_pair calls accumulate the
COLOR_PAIR bits of both identifiers in the raw mask (the old bits are
not cleared), while the color_pair field holds the second identifier. -/
theorem c10_set_color_pair_accumulates (k : Curses) (a : Attributes) (c1 c2 : chtype) :
    ((a.set_color_pair k c1).set_color_pair k c2).raw &&& k.COLOR_PAIR c1 =
      k.COLOR_PAIR c1 ∧
    ((a.set_color_pair k c1).set_color_pair k c2).raw &&& k.COLOR_PAIR c2 =
      k.COLOR_PAIR c2 ∧
    ((a.set_color_pair k c1).set_color_pair k c2).color_pair = c2 :=
  ⟨or_left_and_absorb a.raw (k.COLOR_PAIR c1) (k.COLOR_PAIR c2),
   or_and_absorb (a.raw ||| k.COLOR_PAIR c1) (k.COLOR_PAIR c2),
   rfl⟩
